import Mathlib

/-!
Verification of the Buscar-Pisos relay actor.

The repository holds two small implementations of the same pipeline:
`src/main.js` (structured-schema variant, calling igolaizola/idealista-scraper
with a JSON input) and `src/unnamed/part_000` (URL-path variant, calling
dz_omar/idealista-scraper with a built idealista.com URL). Both read the same
raw input `{ ciudad, precio_max, for_rent }`, default missing fields with the
JavaScript `||` idiom, build a remote request, call the remote scraper, fetch
its dataset items and push them unchanged as their own output.

The definitions below are a shallow embedding of that code, faithful to the
two sources line by line; the theorems settle the spec's claims about it.
-/

namespace BuscarPisos

/-- JSON-like values, enough to express the remote request payloads the two
variants build. -/
inductive JVal : Type where
  | num (n : Int)
  | str (s : String)
  | bool (b : Bool)
  | arr (elems : List JVal)
  | obj (fields : List (String × JVal))

/-- A remote request is a JSON object: an ordered list of named fields. -/
abbrev RemoteRequest := List (String × JVal)

/-- Value of a field of a request, `none` when the field is absent. -/
def getField (req : RemoteRequest) (key : String) : Option JVal :=
  (req.find? (fun kv => kv.1 == key)).map (fun kv => kv.2)

/-- Whether a request carries a field with the given name. -/
def hasField (req : RemoteRequest) (key : String) : Bool :=
  req.any (fun kv => kv.1 == key)

/-- The raw input payload `{ ciudad, precio_max, for_rent }` read with
`Actor.getInput()`; every key is optional (both variants, lines 12-15). -/
structure RawInput where
  ciudad : Option String
  precio_max : Option Int
  for_rent : Option Bool

/-- The `raw || default` idiom on a string: the empty string is the only
falsy string in JavaScript, so it and an absent value fall to the default. -/
def jsOrString (v : Option String) (d : String) : String :=
  match v with
  | none => d
  | some s => if s = "" then d else s

/-- The `raw || default` idiom on a number: zero is falsy, any other number
(negative included) is truthy and kept. -/
def jsOrNumber (v : Option Int) (d : Int) : Int :=
  match v with
  | none => d
  | some n => if n = 0 then d else n

/-- The `raw || default` idiom on a boolean. -/
def jsOrBoolean (v : Option Bool) (d : Bool) : Bool :=
  match v with
  | none => d
  | some b => b || d

/-- `const ciudad = input.ciudad || "madrid"` (both variants). -/
def readCiudad (input : RawInput) : String :=
  jsOrString input.ciudad "madrid"

/-- `const maxPrice = input.precio_max || 200000` (both variants). -/
def readMaxPrice (input : RawInput) : Int :=
  jsOrNumber input.precio_max 200000

/-- `const forRent = input.for_rent || false` (both variants). -/
def readForRent (input : RawInput) : Bool :=
  jsOrBoolean input.for_rent false

/-- `buildIdealistaInput` from `src/main.js` lines 20-42: the structured
request sent to igolaizola/idealista-scraper, with the fields in source
order. Note that `maxPrice` is always emitted and `locationQuery` is the
city verbatim. -/
def buildIdealistaInput (ciudad : String) (maxPrice : Int) (forRent : Bool) :
    RemoteRequest :=
  [ ("maxItems", JVal.num 50)
  , ("operation", JVal.str (if forRent then "rent" else "sale"))
  , ("propertyType", JVal.str "homes")
  , ("country", JVal.str "Spain")
  , ("minPrice", JVal.num 0)
  , ("maxPrice", JVal.num maxPrice)
  , ("locationQuery", JVal.str ciudad) ]

/-- JavaScript `String.prototype.toLowerCase()` on the character sequence. -/
def jsToLowerCase (s : String) : String :=
  String.mk (s.data.map Char.toLower)

/-- JavaScript `String.prototype.trim()`: drop whitespace at both ends. -/
def jsTrim (s : String) : String :=
  String.mk
    (((s.data.dropWhile Char.isWhitespace).reverse.dropWhile
        Char.isWhitespace).reverse)

/-- JavaScript `.replace(/ /g, "-")`: every space becomes a hyphen. -/
def jsReplaceSpaces (s : String) : String :=
  String.mk (s.data.map (fun c => if c = ' ' then '-' else c))

/-- `const slug = ciudad.toLowerCase().trim().replace(/ /g, "-")`
(`src/unnamed/part_000` line 18). -/
def idealistaSlug (ciudad : String) : String :=
  jsReplaceSpaces (jsTrim (jsToLowerCase ciudad))

/-- The `base` URL chosen by the rent/sale branch
(`src/unnamed/part_000` lines 21-25). -/
def urlBase (ciudad : String) (forRent : Bool) : String :=
  if forRent then
    "https://www.idealista.com/alquiler-viviendas/" ++ idealistaSlug ciudad ++ "/"
  else
    "https://www.idealista.com/venta-viviendas/" ++ idealistaSlug ciudad ++ "/"

/-- `buildIdealistaUrl` from `src/unnamed/part_000` lines 17-32. The guard
`maxPrice && maxPrice > 0` requires the number to be truthy (nonzero) and
positive before the `precio-hasta_` segment is appended. -/
def buildIdealistaUrl (ciudad : String) (maxPrice : Int) (forRent : Bool) :
    String :=
  if maxPrice ≠ 0 ∧ maxPrice > 0 then
    urlBase ciudad forRent ++ "precio-hasta_" ++ toString maxPrice ++ "/"
  else
    urlBase ciudad forRent

/-- `const childInput = buildIdealistaInput(ciudad, maxPrice, forRent)`
(`src/main.js` line 44), with the three defaulted constants plugged in. -/
def childInput (input : RawInput) : RemoteRequest :=
  buildIdealistaInput (readCiudad input) (readMaxPrice input)
    (readForRent input)

/-- `const urlBusqueda = buildIdealistaUrl(ciudad, maxPrice, forRent)`
(`src/unnamed/part_000` line 34). -/
def urlBusqueda (input : RawInput) : String :=
  buildIdealistaUrl (readCiudad input) (readMaxPrice input)
    (readForRent input)

/-- The request object passed to `Actor.call("dz_omar/idealista-scraper", …)`
(`src/unnamed/part_000` lines 38-44): the URL wrapped in a one-element array
and a hard-coded residential proxy configuration. -/
def dzOmarCallRequest (urlBusqueda : String) : RemoteRequest :=
  [ ("Url", JVal.arr [JVal.str urlBusqueda])
  , ("proxyConfig", JVal.obj
      [ ("useApifyProxy", JVal.bool true)
      , ("apifyProxyGroups", JVal.arr [JVal.str "RESIDENTIAL"]) ]) ]

/-- Outcome of the result-relay stage: the records pushed with
`Actor.pushData` and the number of `console.warn` diagnostics emitted. -/
structure RunResult (α : Type) where
  published : List α
  warnings : Nat

/-- The relay stage of both variants (`src/main.js` lines 55-63,
`src/unnamed/part_000` lines 49-57). After `const { items } = await
Actor.getDatasetItems(…)` the code logs `items.length`; when `items` is
absent that dereference throws a TypeError before the `items &&
items.length > 0` guard is reached, so the run fails. When `items` is a
present array (arrays are truthy, the empty one included) the guard reduces
to `items.length > 0`: a non-empty array is pushed unchanged, an empty one
yields one warning and no output. -/
def relay {α : Type} (fetched : Option (List α)) :
    Except String (RunResult α) :=
  match fetched with
  | none => Except.error "TypeError: items is undefined"
  | some items =>
      if items.length > 0 then Except.ok ⟨items, 0⟩
      else Except.ok ⟨[], 1⟩

/-- The fully-empty raw payload `{}`. -/
def emptyInput : RawInput := ⟨none, none, none⟩

/-- C1, counterexample: the structured variant emits the price-ceiling field
even when `maxPrice = 0`, and as the literal zero, contradicting "omitted
entirely (never emitted as zero or null)" for `maxPrice` not greater
than 0. -/
theorem C1_cex :
    hasField (buildIdealistaInput "madrid" 0 false) "maxPrice" = true ∧
    getField (buildIdealistaInput "madrid" 0 false) "maxPrice" =
      some (JVal.num 0) ∧
    ¬((0 : Int) > 0) :=
  ⟨rfl, rfl, by decide⟩

/-- C1, amended: the structured variant always emits the `maxPrice` field,
equal to `maxPrice` whatever its sign; only the URL-path variant applies the
`maxPrice > 0` guard, appending the `precio-hasta_` segment with exactly
`maxPrice` when positive and omitting it otherwise. -/
theorem C1_price_ceiling (c : String) (m : Int) (f : Bool) :
    getField (buildIdealistaInput c m f) "maxPrice" = some (JVal.num m) ∧
    buildIdealistaUrl c m f =
      (if 0 < m then urlBase c f ++ "precio-hasta_" ++ toString m ++ "/"
       else urlBase c f) := by
  refine ⟨rfl, ?_⟩
  unfold buildIdealistaUrl
  by_cases h : 0 < m
  · rw [if_pos ⟨ne_of_gt h, h⟩, if_pos h]
  · rw [if_neg (fun hc => h hc.2), if_neg h]

/-- C2, counterexample: on the fully empty payload `{}` the defaults make
`maxPrice = 200000`, so both variants do carry a price ceiling, contradicting
"contains no price-ceiling field". -/
theorem C2_cex :
    hasField (childInput emptyInput) "maxPrice" = true ∧
    getField (childInput emptyInput) "maxPrice" = some (JVal.num 200000) ∧
    urlBusqueda emptyInput =
      "https://www.idealista.com/venta-viviendas/madrid/precio-hasta_200000/" :=
  ⟨rfl, rfl, rfl⟩

/-- C2, amended: the empty payload `{}` yields location query "madrid" and
operation "sale", but a price ceiling of 200000 is present, because
`precio_max` defaults to 200000 rather than staying absent. -/
theorem C2_empty_input :
    childInput emptyInput = buildIdealistaInput "madrid" 200000 false ∧
    getField (childInput emptyInput) "locationQuery" =
      some (JVal.str "madrid") ∧
    getField (childInput emptyInput) "operation" = some (JVal.str "sale") ∧
    getField (childInput emptyInput) "maxPrice" = some (JVal.num 200000) ∧
    urlBusqueda emptyInput =
      "https://www.idealista.com/venta-viviendas/madrid/precio-hasta_200000/" :=
  ⟨rfl, rfl, rfl, rfl, rfl⟩

/-- C3, counterexample: the structured variant passes the city through
verbatim — for input city "Barcelona" the location query is "Barcelona",
not the lower-cased "barcelona" the claim requires. -/
theorem C3_cex :
    getField (childInput ⟨some "Barcelona", some 150000, some true⟩)
        "locationQuery" = some (JVal.str "Barcelona") ∧
    "Barcelona" ≠ "barcelona" :=
  ⟨rfl, by decide⟩

/-- C3, amended: only the URL-path variant lower-cases, trims and hyphenates
the city ("Barcelona" becomes the slug "barcelona"); the structured variant
emits the city verbatim as `locationQuery`, with no case normalization. -/
theorem C3_location (c : String) (m : Int) (f : Bool) :
    getField (buildIdealistaInput c m f) "locationQuery" =
      some (JVal.str c) ∧
    idealistaSlug c = jsReplaceSpaces (jsTrim (jsToLowerCase c)) ∧
    idealistaSlug "Barcelona" = "barcelona" ∧
    buildIdealistaUrl "Barcelona" 150000 true =
      "https://www.idealista.com/alquiler-viviendas/barcelona/precio-hasta_150000/" :=
  ⟨rfl, rfl, rfl, rfl⟩

/-- C4, counterexample: when the fetched `items` value is absent the run does
not complete — `items.length` in the record-count log throws before the
guard, so the relay fails instead of warning. -/
theorem C4_cex :
    relay (none : Option (List JVal)) =
      Except.error "TypeError: items is undefined" :=
  rfl

/-- C4, amended: a present-but-empty fetched sequence publishes nothing,
emits exactly one warning and completes without error; an absent sequence
instead fails the run with a TypeError at the record-count log, before the
guard is reached. -/
theorem C4_empty_result (α : Type) :
    relay (some ([] : List α)) = Except.ok ⟨[], 1⟩ ∧
    relay (none : Option (List α)) =
      Except.error "TypeError: items is undefined" :=
  ⟨rfl, rfl⟩

/-- C5: for every non-empty fetched sequence the relay publishes exactly that
sequence — same records, same order, untransformed — with no warning. -/
theorem C5_relay_identity {α : Type} (l : List α) (h : l ≠ []) :
    relay (some l) = Except.ok ⟨l, 0⟩ := by
  show (if l.length > 0 then
      (Except.ok ⟨l, 0⟩ : Except String (RunResult α))
    else Except.ok ⟨[], 1⟩) = Except.ok ⟨l, 0⟩
  rw [if_pos (List.length_pos.mpr h)]

/-- C5, witness: a concrete three-record collection is relayed as the same
three records, in order, with zero warnings. -/
theorem C5_relay_identity_witness :
    relay (some [JVal.str "piso1", JVal.str "piso2", JVal.str "piso3"]) =
      Except.ok
        ⟨[JVal.str "piso1", JVal.str "piso2", JVal.str "piso3"], 0⟩ :=
  C5_relay_identity _ (List.cons_ne_nil _ _)

/-- C6: the operation discriminator is "rent" exactly when `forRent` is true
and "sale" when it is false; an absent or false `for_rent` defaults to false,
and the URL-path variant picks its base segment by the same boolean. -/
theorem C6_operation (c : String) (m : Int) (f : Bool) (oc : Option String)
    (om : Option Int) :
    getField (buildIdealistaInput c m f) "operation" =
      some (JVal.str (if f then "rent" else "sale")) ∧
    readForRent ⟨oc, om, none⟩ = false ∧
    readForRent ⟨oc, om, some false⟩ = false ∧
    readForRent ⟨oc, om, some true⟩ = true ∧
    urlBase c f =
      (if f then "https://www.idealista.com/alquiler-viviendas/"
       else "https://www.idealista.com/venta-viviendas/") ++
        idealistaSlug c ++ "/" :=
  ⟨rfl, rfl, rfl, rfl, by cases f <;> rfl⟩

/-- C7, counterexample: the URL-path variant's remote request carries neither
the record-count ceiling nor the property-category selector — its only fields
are `Url` and `proxyConfig` — contradicting "always included … including
under the URL-path target-schema variant". -/
theorem C7_cex :
    hasField (dzOmarCallRequest (urlBusqueda emptyInput)) "maxItems" =
      false ∧
    hasField (dzOmarCallRequest (urlBusqueda emptyInput)) "propertyType" =
      false :=
  ⟨rfl, rfl⟩

/-- C7, amended: the structured variant always carries `maxItems = 50` and
`propertyType = "homes"`, for every input; the URL-path variant's request
contains neither field. -/
theorem C7_fixed_fields (c : String) (m : Int) (f : Bool) (url : String) :
    getField (buildIdealistaInput c m f) "maxItems" = some (JVal.num 50) ∧
    getField (buildIdealistaInput c m f) "propertyType" =
      some (JVal.str "homes") ∧
    hasField (dzOmarCallRequest url) "maxItems" = false ∧
    hasField (dzOmarCallRequest url) "propertyType" = false :=
  ⟨rfl, rfl, rfl, rfl⟩

/-- C8, counterexample: defaulting does not clamp a negative `precio_max` —
raw input `{ precio_max: -5 }` yields a SearchSpec with `maxPrice = -5`,
violating "maxPrice, whenever present, is ≥ 0". -/
theorem C8_cex :
    readMaxPrice ⟨none, some (-5), none⟩ = -5 ∧ ¬((-5 : Int) ≥ 0) :=
  ⟨rfl, by decide⟩

/-- C8, amended: after defaulting the city is never empty, and the defaulted
`maxPrice` is negative exactly when the raw `precio_max` was itself a
negative number — defaulting never introduces a negative value but passes raw
negatives through unclamped. -/
theorem C8_invariant (input : RawInput) :
    readCiudad input ≠ "" ∧
    (readMaxPrice input < 0 ↔
      ∃ p, input.precio_max = some p ∧ p < 0) := by
  constructor
  · unfold readCiudad jsOrString
    cases hc : input.ciudad with
    | none => decide
    | some s =>
        show (if s = "" then "madrid" else s) ≠ ""
        by_cases hs : s = ""
        · rw [if_pos hs]; decide
        · rw [if_neg hs]; exact hs
  · unfold readMaxPrice jsOrNumber
    cases hp : input.precio_max with
    | none =>
        show (200000 : Int) < 0 ↔ ∃ q, (none : Option Int) = some q ∧ q < 0
        constructor
        · intro h; exact absurd h (by decide)
        · rintro ⟨q, hq, _⟩; exact Option.noConfusion hq
    | some p =>
        show (if p = 0 then (200000 : Int) else p) < 0 ↔
          ∃ q, some p = some q ∧ q < 0
        by_cases hp0 : p = 0
        · subst hp0
          rw [if_pos rfl]
          constructor
          · intro h; exact absurd h (by decide)
          · rintro ⟨q, hq, hlt⟩
            rw [Option.some.injEq] at hq
            subst hq
            exact absurd hlt (by decide)
        · rw [if_neg hp0]
          constructor
          · intro h; exact ⟨p, rfl, h⟩
          · rintro ⟨q, hq, hlt⟩
            rw [Option.some.injEq] at hq
            subst hq
            exact hlt

/-- C9: the structured variant's request always carries a price floor of
exactly 0 and the fixed country "Spain", for every input. -/
theorem C9_min_price_country (c : String) (m : Int) (f : Bool) :
    getField (buildIdealistaInput c m f) "minPrice" = some (JVal.num 0) ∧
    getField (buildIdealistaInput c m f) "country" =
      some (JVal.str "Spain") :=
  ⟨rfl, rfl⟩

/-- C10: every URL-path-variant invocation requests the Apify proxy with the
RESIDENTIAL group, for every raw input payload — the proxy configuration is a
hard-coded literal the input cannot influence. -/
theorem C10_proxy (input : RawInput) :
    getField (dzOmarCallRequest (urlBusqueda input)) "proxyConfig" =
      some (JVal.obj
        [ ("useApifyProxy", JVal.bool true)
        , ("apifyProxyGroups", JVal.arr [JVal.str "RESIDENTIAL"]) ]) :=
  rfl

end BuscarPisos
